import Mathlib

/-!
Shallow embedding of the enforcement core of the campus-listen-loop
repository: the SQL policy/trigger layer declared in
`supabase/migrations/20251111170845_*.sql` and
`supabase/migrations/20251121024148_*.sql`.

The persistent state is the four relations the migrations create
(`complaints`, `complaint_timeline`, `identity_lockers`, `user_roles`);
an operation is an API request (INSERT / UPDATE / SELECT on one of those
tables) as admitted by the row-level-security policies, with the
`BEFORE INSERT` / `AFTER INSERT` triggers on `complaints` folded into
the insert step, exactly as PostgreSQL runs them inside the inserting
transaction.

Modelling notes, all checked against the SQL text:
* Identifiers (`uuid` columns) are modelled as `Nat`; freshly inserted
  complaints draw their id from a counter, mirroring `gen_random_uuid()`
  never colliding.
* Payload columns that no policy, trigger or claim ever reads
  (`category`, `severity`, `title`, `description`, `rating`,
  `withdrawal_reason`, the timestamps other than `withdrawn_at`) are
  omitted; `withdrawn_at` is kept as `Option Nat` because
  `check_active_complaint_limit` tests it against NULL.
* The `profiles` table is out of the enforcement core (the spec's
  identity subsystem); foreign keys into it are not modelled.
* Row-level security semantics: a SELECT or UPDATE whose `USING` clause
  rejects a row silently filters that row out (no error), while an
  INSERT or an UPDATE whose `WITH CHECK` clause rejects the new row
  raises an error; a policy with `USING` but no `WITH CHECK` applies its
  `USING` expression to the new row.  Policies on one table are
  permissive and are OR-ed.
* `user_roles` rows cannot be inserted through the API before an admin
  exists (the insert policy itself requires the admin role), so role
  provisioning done out of band (service key / SQL console) is modelled
  as the seed of the initial state.
* There is no DELETE policy on any of the four tables, so the API admits
  no delete except the admin `FOR ALL` policy on `identity_lockers`.
-/

abbrev UserId := Nat
abbrev ComplaintId := Nat

/-- `public.app_role` enum (`'student' | 'staff' | 'admin'`). -/
inductive AppRole where
  | student
  | staff
  | admin
deriving DecidableEq

/-- `public.complaint_status` enum (`'submitted' | 'in_progress' | 'resolved'`). -/
inductive ComplaintStatus where
  | submitted
  | in_progress
  | resolved
deriving DecidableEq

/-- A row of `public.complaints` (payload columns that nothing in the
verified layer reads are omitted, see the file header). -/
structure Complaint where
  id : ComplaintId
  student_id : UserId
  is_anonymous : Bool
  status : ComplaintStatus
  staff_assigned : Option UserId
  withdrawn_at : Option Nat
deriving DecidableEq

/-- A row of `public.complaint_timeline` (`updated_by` is nullable). -/
structure TimelineEntry where
  complaint_id : ComplaintId
  updated_by : Option UserId
  message : String
deriving DecidableEq

/-- A row of `public.identity_lockers`.  `reveal_status` is an
unconstrained `text` column whose default is `'not_revealed'`. -/
structure IdentityLocker where
  complaint_id : ComplaintId
  real_student_id : UserId
  reveal_status : String
  reveal_reason : Option String
  reveal_requested_by : Option UserId
  revealed_at : Option Nat
deriving DecidableEq

/-- A row of `public.user_roles`; the table carries
`UNIQUE (user_id, role)` (its surrogate `id` column is omitted). -/
structure RoleAssignment where
  user_id : UserId
  role : AppRole
deriving DecidableEq

/-- The persistent store: the four relations plus the id counter used
for fresh complaint ids. -/
structure DB where
  complaints : List Complaint
  timeline : List TimelineEntry
  lockers : List IdentityLocker
  user_roles : List RoleAssignment
  next_id : Nat
deriving DecidableEq

/-- `public.has_role(_user_id, _role)`: membership test on `user_roles`. -/
def has_role (db : DB) (u : UserId) (r : AppRole) : Bool :=
  db.user_roles.any (fun a => a.user_id == u && a.role == r)

/-- The `WHERE` clause of `check_active_complaint_limit`:
`student_id = NEW.student_id AND status != 'resolved' AND withdrawn_at IS NULL`. -/
def isActiveFor (s : UserId) (c : Complaint) : Bool :=
  c.student_id == s && !(c.status == ComplaintStatus.resolved) && c.withdrawn_at == none

/-- The `SELECT COUNT(*)` of `check_active_complaint_limit`. -/
def activeCount (db : DB) (s : UserId) : Nat :=
  (db.complaints.filter (isActiveFor s)).length

/-- `public.check_active_complaint_limit()` (BEFORE INSERT trigger body):
`true` means the trigger raises
`'You cannot have more than 3 active complaints at a time'`. -/
def check_active_complaint_limit (db : DB) (s : UserId) : Bool :=
  3 ≤ activeCount db s

/-- `public.add_complaint_timeline()` (AFTER INSERT trigger body):
`INSERT INTO complaint_timeline (complaint_id, updated_by, message)
VALUES (NEW.id, NEW.student_id, 'Complaint submitted')`. -/
def add_complaint_timeline (c : Complaint) (tl : List TimelineEntry) :
    List TimelineEntry :=
  tl ++ [⟨c.id, some c.student_id, "Complaint submitted"⟩]

/-- `public.create_identity_locker()` (AFTER INSERT trigger body):
`IF NEW.is_anonymous THEN INSERT INTO identity_lockers (complaint_id,
real_student_id) VALUES (NEW.id, NEW.student_id) ON CONFLICT
(complaint_id) DO NOTHING`. -/
def create_identity_locker (c : Complaint) (ls : List IdentityLocker) :
    List IdentityLocker :=
  if c.is_anonymous then
    if ls.any (fun l => l.complaint_id == c.id) then ls
    else ls ++ [⟨c.id, c.student_id, "not_revealed", none, none, none⟩]
  else ls

/-- Typed failures.  `LimitExceeded` is the exception raised by
`check_active_complaint_limit`; `RowViolation` is a failed RLS
`WITH CHECK`; `UniqueViolation` is a unique/primary-key conflict.
`InvalidTransition` is the error kind the spec's state machines name:
it is part of the error vocabulary so that the claims about it can be
stated, and as the theorems show the SQL layer never produces it. -/
inductive DomainError where
  | LimitExceeded
  | RowViolation
  | UniqueViolation
  | InvalidTransition
deriving DecidableEq

/-- The caller-supplied part of a complaint INSERT
(see the insert in `src/pages/Landing.tsx`: the client sends
`student_id`, payload fields, `is_anonymous`, `status: "submitted"`). -/
structure Draft where
  student_id : UserId
  is_anonymous : Bool
deriving DecidableEq

/-- INSERT into `complaints` as one atomic step:
1. RLS policy "Students can create complaints"
   (`WITH CHECK (auth.uid() = student_id)`), a violation errors;
2. BEFORE INSERT trigger `enforce_complaint_limit`;
3. the row itself, with the column defaults
   (`status 'submitted'`, `staff_assigned NULL`, `withdrawn_at NULL`);
4. AFTER INSERT triggers `on_complaint_created` and
   `on_anonymous_complaint`, in the same transaction. -/
def submitComplaint (db : DB) (caller : UserId) (d : Draft) :
    Except DomainError DB :=
  if caller ≠ d.student_id then Except.error DomainError.RowViolation
  else if check_active_complaint_limit db d.student_id then
    Except.error DomainError.LimitExceeded
  else
    let c : Complaint :=
      ⟨db.next_id, d.student_id, d.is_anonymous, ComplaintStatus.submitted,
        none, none⟩
    Except.ok
      ⟨db.complaints ++ [c], add_complaint_timeline c db.timeline,
        create_identity_locker c db.lockers, db.user_roles, db.next_id + 1⟩

/-- The OR of the three SELECT policies on `complaints`:
"Students can view their own complaints" (`auth.uid() = student_id`),
"Staff can view assigned complaints"
(`has_role(auth.uid(),'staff') AND staff_assigned = auth.uid()`),
"Admin can view all complaints" (`has_role(auth.uid(),'admin')`). -/
def canViewComplaint (db : DB) (caller : UserId) (c : Complaint) : Bool :=
  c.student_id == caller
    || (has_role db caller AppRole.staff && c.staff_assigned == some caller)
    || has_role db caller AppRole.admin

/-- Outcome vocabulary of a single-row read, following the spec's
`read` contract (`Complaint | not found | forbidden`).  RLS filters
invisible rows out of the result set, so as `readComplaint` shows the
`unauthorized` outcome is never produced by the SQL layer. -/
inductive ReadResult where
  | found (c : Complaint)
  | notFound
  | unauthorized
deriving DecidableEq

/-- `SELECT * FROM complaints WHERE id = cid` under RLS: a row the
policies hide is simply absent from the result. -/
def readComplaint (db : DB) (caller : UserId) (cid : ComplaintId) :
    ReadResult :=
  match db.complaints.find? (fun c => c.id == cid) with
  | none => ReadResult.notFound
  | some c =>
      if canViewComplaint db caller c then ReadResult.found c
      else ReadResult.notFound

/-- The OR of the three SELECT policies on `complaint_timeline`:
"Users can view timeline for their complaints",
"Staff can view timeline for assigned complaints",
"Admin can view all complaint timelines". -/
def canViewTimeline (db : DB) (caller : UserId) (e : TimelineEntry) : Bool :=
  db.complaints.any (fun c => c.id == e.complaint_id && c.student_id == caller)
    || (has_role db caller AppRole.staff
        && db.complaints.any
            (fun c => c.id == e.complaint_id && c.staff_assigned == some caller))
    || has_role db caller AppRole.admin

/-- The SET list of an UPDATE on `complaints`: `none` leaves the column
alone.  All columns the policies admit changing are part of the payload,
`student_id` included: no UPDATE policy's `WITH CHECK` clause constrains
it beyond the row check, so staff or admin callers can set it.  Only the
primary key `id` is not updatable: `complaint_timeline.complaint_id`
references it with the default `ON UPDATE NO ACTION`, and every
complaint has a timeline row from the insert trigger, so a key change
is always rejected by the foreign key. -/
structure ComplaintUpdate where
  status : Option ComplaintStatus
  staff_assigned : Option (Option UserId)
  is_anonymous : Option Bool
  withdrawn_at : Option (Option Nat)
  student_id : Option UserId
deriving DecidableEq

def applyComplaintUpdate (u : ComplaintUpdate) (c : Complaint) : Complaint :=
  { c with
      status := u.status.getD c.status
      staff_assigned := u.staff_assigned.getD c.staff_assigned
      is_anonymous := u.is_anonymous.getD c.is_anonymous
      withdrawn_at := u.withdrawn_at.getD c.withdrawn_at
      student_id := u.student_id.getD c.student_id }

/-- The OR of the three UPDATE policies on `complaints`:
"Students can update their own complaints" (`USING auth.uid() =
student_id`, no `WITH CHECK`, hence the same test on the new row),
"Staff can update assigned complaints" (identical `USING` and
`WITH CHECK`), "Admin can update all complaints".  The same expression
therefore gates both the old and the new row. -/
def complaintUpdatePolicy (db : DB) (caller : UserId) (c : Complaint) : Bool :=
  c.student_id == caller
    || (has_role db caller AppRole.staff && c.staff_assigned == some caller)
    || has_role db caller AppRole.admin

/-- UPDATE of the `complaints` row `cid`.  A row hidden by `USING`
(or an absent id) updates zero rows without error; a new row failing
every `WITH CHECK` raises.  No trigger listens on UPDATE of
`complaints`, so neither the timeline nor the lockers move. -/
def updateComplaintRow (db : DB) (caller : UserId) (cid : ComplaintId)
    (u : ComplaintUpdate) : Except DomainError DB :=
  match db.complaints.find? (fun c => c.id == cid) with
  | none => Except.ok db
  | some c =>
      if complaintUpdatePolicy db caller c then
        if complaintUpdatePolicy db caller (applyComplaintUpdate u c) then
          Except.ok
            { db with
                complaints := db.complaints.map
                  (fun x => if x.id == cid then applyComplaintUpdate u x else x) }
        else Except.error DomainError.RowViolation
      else Except.ok db

/-- INSERT into `user_roles`: the policy "Admins manage user roles"
(`WITH CHECK has_role(auth.uid(),'admin')`) gates it, and the
`UNIQUE (user_id, role)` constraint rejects a duplicate pair. -/
def insertUserRole (db : DB) (caller : UserId) (u : UserId) (r : AppRole) :
    Except DomainError DB :=
  if !has_role db caller AppRole.admin then
    Except.error DomainError.RowViolation
  else if db.user_roles.any (fun a => a.user_id == u && a.role == r) then
    Except.error DomainError.UniqueViolation
  else
    Except.ok { db with user_roles := db.user_roles ++ [⟨u, r⟩] }

/-- The SET list of an UPDATE on `identity_lockers` (the primary key
`complaint_id` is never updated). -/
structure LockerUpdate where
  real_student_id : Option UserId
  reveal_status : Option String
  reveal_reason : Option (Option String)
  reveal_requested_by : Option (Option UserId)
  revealed_at : Option (Option Nat)
deriving DecidableEq

def applyLockerUpdate (u : LockerUpdate) (l : IdentityLocker) : IdentityLocker :=
  { l with
      real_student_id := u.real_student_id.getD l.real_student_id
      reveal_status := u.reveal_status.getD l.reveal_status
      reveal_reason := u.reveal_reason.getD l.reveal_reason
      reveal_requested_by := u.reveal_requested_by.getD l.reveal_requested_by
      revealed_at := u.revealed_at.getD l.revealed_at }

/-- The single policy on `identity_lockers`, "Admin can manage identity
lockers": `FOR ALL USING has_role(auth.uid(),'admin') WITH CHECK` the
same, independent of the row. -/
def lockerPolicy (db : DB) (caller : UserId) : Bool :=
  has_role db caller AppRole.admin

/-- UPDATE of the locker row `cid`.  For a non-admin the `USING` clause
hides every row, so zero rows update without error; for an admin the
row-independent `WITH CHECK` also passes, so any SET list is applied:
nothing constrains `reveal_status`. -/
def updateLockerRow (db : DB) (caller : UserId) (cid : ComplaintId)
    (u : LockerUpdate) : Except DomainError DB :=
  match db.lockers.find? (fun l => l.complaint_id == cid) with
  | none => Except.ok db
  | some _ =>
      if lockerPolicy db caller then
        Except.ok
          { db with
              lockers := db.lockers.map
                (fun x => if x.complaint_id == cid then applyLockerUpdate u x else x) }
      else Except.ok db

/-- INSERT into `identity_lockers` under the admin `FOR ALL` policy,
with the primary-key conflict on `complaint_id`. -/
def insertLockerRow (db : DB) (caller : UserId) (l : IdentityLocker) :
    Except DomainError DB :=
  if !lockerPolicy db caller then Except.error DomainError.RowViolation
  else if db.lockers.any (fun x => x.complaint_id == l.complaint_id) then
    Except.error DomainError.UniqueViolation
  else Except.ok { db with lockers := db.lockers ++ [l] }

/-- DELETE on `identity_lockers` under the admin `FOR ALL` policy:
rows hidden from a non-admin are simply not deleted. -/
def deleteLockerRow (db : DB) (caller : UserId) (cid : ComplaintId) :
    Except DomainError DB :=
  if lockerPolicy db caller then
    Except.ok
      { db with lockers := db.lockers.filter (fun x => !(x.complaint_id == cid)) }
  else Except.ok db

/-- One API request against the store, as admitted by the policies. -/
inductive Op where
  | submit (caller : UserId) (d : Draft)
  | updateComplaint (caller : UserId) (cid : ComplaintId) (u : ComplaintUpdate)
  | grantRole (caller : UserId) (u : UserId) (r : AppRole)
  | updateLocker (caller : UserId) (cid : ComplaintId) (u : LockerUpdate)
  | insertLocker (caller : UserId) (l : IdentityLocker)
  | deleteLocker (caller : UserId) (cid : ComplaintId)

def applyOp (db : DB) : Op → Except DomainError DB
  | Op.submit caller d => submitComplaint db caller d
  | Op.updateComplaint caller cid u => updateComplaintRow db caller cid u
  | Op.grantRole caller u r => insertUserRole db caller u r
  | Op.updateLocker caller cid u => updateLockerRow db caller cid u
  | Op.insertLocker caller l => insertLockerRow db caller l
  | Op.deleteLocker caller cid => deleteLockerRow db caller cid

/-- A failed request rolls back: the store is unchanged. -/
def stepOk (db : DB) (op : Op) : DB :=
  match applyOp db op with
  | Except.ok db' => db'
  | Except.error _ => db

/-- Run a sequence of requests. -/
def run (db : DB) (ops : List Op) : DB :=
  ops.foldl stepOk db

/-- The initial store: empty relations, except the role rows provisioned
out of band (service key / SQL console), which the in-band policies can
never bootstrap. -/
def dbInit (seed : List RoleAssignment) : DB :=
  ⟨[], [], [], seed, 0⟩

/-- The audit invariant behind claims on the timeline: every complaint
row has a creation timeline entry carrying the message the trigger
writes.  (The entry's author column is not part of the invariant: it
records the submitter at insert time, while the row's `student_id` can
be changed later by staff/admin updates.) -/
def timelineInv (db : DB) : Prop :=
  ∀ c ∈ db.complaints, ∃ e ∈ db.timeline,
    e.complaint_id = c.id ∧ e.message = "Complaint submitted"

theorem applyComplaintUpdate_id (u : ComplaintUpdate) (c : Complaint) :
    (applyComplaintUpdate u c).id = c.id := rfl

theorem timelineInv_submit (db : DB) (caller : UserId) (d : Draft) (db' : DB)
    (hok : submitComplaint db caller d = Except.ok db')
    (h : timelineInv db) : timelineInv db' := by
  unfold submitComplaint at hok
  split at hok
  · cases hok
  · split at hok
    · cases hok
    · injection hok with hok
      subst hok
      intro c hc
      rcases List.mem_append.mp hc with hold | hnew
      · rcases h c hold with ⟨e, he, h1, h3⟩
        exact ⟨e, List.mem_append.mpr (Or.inl he), h1, h3⟩
      · rcases List.mem_singleton.mp hnew with rfl
        refine ⟨⟨db.next_id, some d.student_id, "Complaint submitted"⟩,
          ?_, rfl, rfl⟩
        exact List.mem_append.mpr (Or.inr (List.mem_singleton.mpr rfl))

theorem timelineInv_update (db : DB) (caller : UserId) (cid : ComplaintId)
    (u : ComplaintUpdate) (db' : DB)
    (hok : updateComplaintRow db caller cid u = Except.ok db')
    (h : timelineInv db) : timelineInv db' := by
  unfold updateComplaintRow at hok
  split at hok
  next =>
    injection hok with hok
    subst hok
    exact h
  next c heq =>
    split at hok
    next =>
      split at hok
      next =>
        injection hok with hok
        subst hok
        intro c' hc'
        rcases List.mem_map.mp hc' with ⟨a, ha, hfa⟩
        rcases h a ha with ⟨e, he, h1, h3⟩
        refine ⟨e, he, ?_, h3⟩
        by_cases hid : (a.id == cid) = true
        · rw [← hfa]
          simp only [hid, if_true]
          exact h1
        · rw [← hfa]
          simp only [hid]
          simpa using h1
      next => cases hok
    next =>
      injection hok with hok
      subst hok
      exact h

theorem timelineInv_stepOk (db : DB) (op : Op) (h : timelineInv db) :
    timelineInv (stepOk db op) := by
  unfold stepOk
  cases hop : applyOp db op with
  | error e => exact h
  | ok db' =>
      show timelineInv db'
      cases op with
      | submit caller d => exact timelineInv_submit db caller d db' hop h
      | updateComplaint caller cid u =>
          exact timelineInv_update db caller cid u db' hop h
      | grantRole caller u r =>
          simp only [applyOp] at hop
          unfold insertUserRole at hop
          split at hop
          next => cases hop
          next =>
            split at hop
            next => cases hop
            next =>
              injection hop with hop
              subst hop
              exact h
      | updateLocker caller cid u =>
          simp only [applyOp] at hop
          unfold updateLockerRow at hop
          split at hop
          next =>
            injection hop with hop
            subst hop
            exact h
          next =>
            split at hop
            next =>
              injection hop with hop
              subst hop
              exact h
            next =>
              injection hop with hop
              subst hop
              exact h
      | insertLocker caller l =>
          simp only [applyOp] at hop
          unfold insertLockerRow at hop
          split at hop
          next => cases hop
          next =>
            split at hop
            next => cases hop
            next =>
              injection hop with hop
              subst hop
              exact h
      | deleteLocker caller cid =>
          simp only [applyOp] at hop
          unfold deleteLockerRow at hop
          split at hop
          next =>
            injection hop with hop
            subst hop
            exact h
          next =>
            injection hop with hop
            subst hop
            exact h

theorem timelineInv_run (db : DB) (ops : List Op) (h : timelineInv db) :
    timelineInv (run db ops) := by
  induction ops generalizing db with
  | nil => exact h
  | cons op ops ih => exact ih (stepOk db op) (timelineInv_stepOk db op h)

theorem timelineInv_dbInit (seed : List RoleAssignment) :
    timelineInv (dbInit seed) := by
  intro c hc
  cases hc

/-- Claim C1 (code bug): the active-complaint cap is enforced only by the
BEFORE INSERT trigger.  The UPDATE policy "Students can update their own
complaints" carries no column or status restriction and no trigger
listens on UPDATE, so the owner of a resolved complaint can set its
status back to `submitted`; here student 1 ends a reachable trace with
four complaints that are simultaneously not resolved and not withdrawn,
although the trigger's own message promises at most three. -/
theorem c1_cap_violated_by_unresolve :
    3 < activeCount (run (dbInit [])
      [Op.submit 1 ⟨1, false⟩, Op.submit 1 ⟨1, false⟩, Op.submit 1 ⟨1, false⟩,
       Op.updateComplaint 1 0 ⟨some ComplaintStatus.resolved, none, none, none, none⟩,
       Op.submit 1 ⟨1, false⟩,
       Op.updateComplaint 1 0 ⟨some ComplaintStatus.submitted, none, none, none, none⟩]) 1 := by
  decide

/-- Claim C2: in every state reachable through the API, every complaint
row has a timeline entry with message "Complaint submitted"; the
`on_complaint_created` AFTER INSERT trigger writes it inside the
inserting transaction (here: inside the same `submitComplaint` step), so
no state is observable in which a complaint exists without it. -/
theorem c2_complaint_has_creation_entry (seed : List RoleAssignment)
    (ops : List Op) (c : Complaint)
    (hc : c ∈ (run (dbInit seed) ops).complaints) :
    ∃ e ∈ (run (dbInit seed) ops).timeline,
      e.complaint_id = c.id ∧ e.message = "Complaint submitted" :=
  timelineInv_run (dbInit seed) ops (timelineInv_dbInit seed) c hc

theorem c2_complaint_has_creation_entry_witness :
    ∃ e ∈ (run (dbInit []) [Op.submit 1 ⟨1, false⟩]).timeline,
      e.complaint_id = 0 ∧ e.message = "Complaint submitted" :=
  c2_complaint_has_creation_entry [] [Op.submit 1 ⟨1, false⟩]
    ⟨0, 1, false, ComplaintStatus.submitted, none, none⟩ (by decide)

theorem timeline_mono_stepOk (db : DB) (op : Op) (e : TimelineEntry)
    (h : e ∈ db.timeline) : e ∈ (stepOk db op).timeline := by
  unfold stepOk
  cases hop : applyOp db op with
  | error _ => exact h
  | ok db' =>
      show e ∈ db'.timeline
      cases op with
      | submit caller d =>
          simp only [applyOp] at hop
          unfold submitComplaint at hop
          split at hop
          next => cases hop
          next =>
            split at hop
            next => cases hop
            next =>
              injection hop with hop
              subst hop
              exact List.mem_append.mpr (Or.inl h)
      | updateComplaint caller cid u =>
          simp only [applyOp] at hop
          unfold updateComplaintRow at hop
          split at hop
          next =>
            injection hop with hop
            subst hop
            exact h
          next =>
            split at hop
            next =>
              split at hop
              next =>
                injection hop with hop
                subst hop
                exact h
              next => cases hop
            next =>
              injection hop with hop
              subst hop
              exact h
      | grantRole caller u r =>
          simp only [applyOp] at hop
          unfold insertUserRole at hop
          split at hop
          next => cases hop
          next =>
            split at hop
            next => cases hop
            next =>
              injection hop with hop
              subst hop
              exact h
      | updateLocker caller cid u =>
          simp only [applyOp] at hop
          unfold updateLockerRow at hop
          split at hop
          next =>
            injection hop with hop
            subst hop
            exact h
          next =>
            split at hop
            next =>
              injection hop with hop
              subst hop
              exact h
            next =>
              injection hop with hop
              subst hop
              exact h
      | insertLocker caller l =>
          simp only [applyOp] at hop
          unfold insertLockerRow at hop
          split at hop
          next => cases hop
          next =>
            split at hop
            next => cases hop
            next =>
              injection hop with hop
              subst hop
              exact h
      | deleteLocker caller cid =>
          simp only [applyOp] at hop
          unfold deleteLockerRow at hop
          split at hop
          next =>
            injection hop with hop
            subst hop
            exact h
          next =>
            injection hop with hop
            subst hop
            exact h

theorem timeline_mono_run (db : DB) (ops : List Op) (e : TimelineEntry)
    (h : e ∈ db.timeline) : e ∈ (run db ops).timeline := by
  induction ops generalizing db with
  | nil => exact h
  | cons op ops ih => exact ih (stepOk db op) (timeline_mono_stepOk db op e h)

/-- Claim C10: when an anonymous complaint is inserted, the
`add_complaint_timeline` trigger stores `NEW.student_id` — which the
INSERT policy forces to be the submitting caller, hence the real
submitter — in the entry's `updated_by` column.  Timeline entries are
never edited or removed by any later operation (`student_id` updates to
the complaint row included), so in every state reachable afterwards the
entry still names the anonymous submitter, and the timeline SELECT
policies grant read access to it both to any admin and to the staff
member the complaint is currently assigned to, with no reveal involved. -/
theorem c10_timeline_entry_names_anonymous_submitter (db : DB)
    (caller : UserId) (d : Draft) (db' : DB) (ops : List Op) (m : UserId)
    (hok : submitComplaint db caller d = Except.ok db')
    (_hanon : d.is_anonymous = true) :
    ∃ e ∈ (run db' ops).timeline,
      e.complaint_id = db.next_id ∧ e.message = "Complaint submitted" ∧
        e.updated_by = some d.student_id ∧
        (has_role (run db' ops) m AppRole.admin = true →
          canViewTimeline (run db' ops) m e = true) ∧
        (has_role (run db' ops) m AppRole.staff = true →
          (∃ c ∈ (run db' ops).complaints,
            c.id = db.next_id ∧ c.staff_assigned = some m) →
          canViewTimeline (run db' ops) m e = true) := by
  have hmem0 : (⟨db.next_id, some d.student_id, "Complaint submitted"⟩ :
      TimelineEntry) ∈ db'.timeline := by
    unfold submitComplaint at hok
    split at hok
    next => cases hok
    next =>
      split at hok
      next => cases hok
      next =>
        injection hok with hok
        subst hok
        exact List.mem_append.mpr (Or.inr (List.mem_singleton.mpr rfl))
  have hmem : (⟨db.next_id, some d.student_id, "Complaint submitted"⟩ :
      TimelineEntry) ∈ (run db' ops).timeline :=
    timeline_mono_run db' ops _ hmem0
  refine ⟨_, hmem, rfl, rfl, rfl, ?_, ?_⟩
  · intro hadmin
    unfold canViewTimeline
    simp only [Bool.or_eq_true]
    exact Or.inr hadmin
  · intro hstaff hass
    rcases hass with ⟨c, hc, hcid, hassigned⟩
    unfold canViewTimeline
    simp only [Bool.or_eq_true, Bool.and_eq_true, List.any_eq_true]
    refine Or.inl (Or.inr ⟨hstaff, c, hc, ?_⟩)
    simp [hcid, hassigned]

theorem c10_timeline_entry_names_anonymous_submitter_witness :
    ∃ e ∈ (run (stepOk (dbInit [⟨9, AppRole.admin⟩, ⟨5, AppRole.staff⟩])
        (Op.submit 1 ⟨1, true⟩))
        [Op.updateComplaint 9 0 ⟨none, some (some 5), none, none, none⟩]).timeline,
      e.complaint_id = (dbInit [⟨9, AppRole.admin⟩, ⟨5, AppRole.staff⟩]).next_id ∧
        e.message = "Complaint submitted" ∧
        e.updated_by = some (⟨1, true⟩ : Draft).student_id ∧
        (has_role (run (stepOk (dbInit [⟨9, AppRole.admin⟩, ⟨5, AppRole.staff⟩])
            (Op.submit 1 ⟨1, true⟩))
            [Op.updateComplaint 9 0 ⟨none, some (some 5), none, none, none⟩]) 5
            AppRole.admin = true →
          canViewTimeline (run (stepOk (dbInit [⟨9, AppRole.admin⟩, ⟨5, AppRole.staff⟩])
            (Op.submit 1 ⟨1, true⟩))
            [Op.updateComplaint 9 0 ⟨none, some (some 5), none, none, none⟩]) 5 e = true) ∧
        (has_role (run (stepOk (dbInit [⟨9, AppRole.admin⟩, ⟨5, AppRole.staff⟩])
            (Op.submit 1 ⟨1, true⟩))
            [Op.updateComplaint 9 0 ⟨none, some (some 5), none, none, none⟩]) 5
            AppRole.staff = true →
          (∃ c ∈ (run (stepOk (dbInit [⟨9, AppRole.admin⟩, ⟨5, AppRole.staff⟩])
              (Op.submit 1 ⟨1, true⟩))
              [Op.updateComplaint 9 0 ⟨none, some (some 5), none, none, none⟩]).complaints,
            c.id = (dbInit [⟨9, AppRole.admin⟩, ⟨5, AppRole.staff⟩]).next_id ∧
              c.staff_assigned = some 5) →
          canViewTimeline (run (stepOk (dbInit [⟨9, AppRole.admin⟩, ⟨5, AppRole.staff⟩])
            (Op.submit 1 ⟨1, true⟩))
            [Op.updateComplaint 9 0 ⟨none, some (some 5), none, none, none⟩]) 5 e = true) :=
  c10_timeline_entry_names_anonymous_submitter
    (dbInit [⟨9, AppRole.admin⟩, ⟨5, AppRole.staff⟩]) 1 ⟨1, true⟩
    (stepOk (dbInit [⟨9, AppRole.admin⟩, ⟨5, AppRole.staff⟩]) (Op.submit 1 ⟨1, true⟩))
    [Op.updateComplaint 9 0 ⟨none, some (some 5), none, none, none⟩] 5
    rfl rfl

/-- Claim C3 (code bug): no redaction exists in the SQL layer.  The
`complaints` row itself carries `student_id`, and the SELECT policy
"Staff can view assigned complaints" returns whole rows, so the staff
member assigned to an anonymous complaint reads the real submitter
identifier (here student 1) with no reveal having taken place —
contradicting the promised redaction that the `identity_lockers`
machinery was meant to provide. -/
theorem c3_staff_reads_anonymous_submitter :
    readComplaint (run (dbInit [⟨9, AppRole.admin⟩, ⟨5, AppRole.staff⟩])
      [Op.submit 1 ⟨1, true⟩,
       Op.updateComplaint 9 0 ⟨none, some (some 5), none, none, none⟩]) 5 0 =
      ReadResult.found ⟨0, 1, true, ComplaintStatus.submitted, some 5, none⟩ := by
  decide

/-- Claim C4, counterexample: the locker trigger fires only on INSERT,
while the UPDATE policy lets the owner flip `is_anonymous` afterwards;
after this reachable trace complaint 0 has its anonymity flag true and
the `identity_lockers` relation is empty, so the exists-iff-anonymous
invariant is false. -/
theorem c4_counterexample_flag_flip_without_locker :
    (run (dbInit [])
      [Op.submit 1 ⟨1, false⟩,
       Op.updateComplaint 1 0 ⟨none, none, some true, none, none⟩]).complaints =
        [⟨0, 1, true, ComplaintStatus.submitted, none, none⟩] ∧
    (run (dbInit [])
      [Op.submit 1 ⟨1, false⟩,
       Op.updateComplaint 1 0 ⟨none, none, some true, none, none⟩]).lockers = [] := by
  exact ⟨rfl, rfl⟩

/-- Claim C4, amended: the correspondence holds at the insert boundary.
A successful complaint INSERT creates an identity-locker entry, in the
same atomic step, if and only if the row was inserted with the anonymity
flag true; the insert path never creates a locker for a row inserted
non-anonymous.  (Later `is_anonymous` updates and direct admin locker
writes are not synchronized with this correspondence, as the
counterexample shows.) -/
theorem c4_locker_created_iff_inserted_anonymous (db : DB) (caller : UserId)
    (d : Draft) (db' : DB)
    (hok : submitComplaint db caller d = Except.ok db')
    (hfresh : ∀ l ∈ db.lockers, l.complaint_id ≠ db.next_id) :
    ((∃ l ∈ db'.lockers, l.complaint_id = db.next_id) ↔ d.is_anonymous = true) ∧
      (d.is_anonymous = false → db'.lockers = db.lockers) := by
  unfold submitComplaint at hok
  split at hok
  next => cases hok
  next =>
    split at hok
    next => cases hok
    next =>
      injection hok with hok
      subst hok
      show ((∃ l ∈ create_identity_locker _ db.lockers, l.complaint_id = db.next_id) ↔ _) ∧ _
      unfold create_identity_locker
      cases hA : d.is_anonymous with
      | false =>
          simp only [hA, Bool.false_eq_true, if_false]
          constructor
          · constructor
            · rintro ⟨l, hl, hid⟩
              exact absurd hid (hfresh l hl)
            · intro hcon
              cases hcon
          · intro _
            trivial
      | true =>
          simp only [hA, if_true]
          cases hany : db.lockers.any (fun l => l.complaint_id == db.next_id) with
          | true =>
              rcases List.any_eq_true.mp hany with ⟨l, hl, hpl⟩
              exact absurd (by simpa using hpl) (hfresh l hl)
          | false =>
              simp only [hany, Bool.false_eq_true, if_false]
              constructor
              · constructor
                · intro _
                  trivial
                · intro _
                  refine ⟨⟨db.next_id, d.student_id, "not_revealed", none, none, none⟩,
                    List.mem_append.mpr (Or.inr (List.mem_singleton.mpr rfl)), rfl⟩
              · intro hcon
                cases hcon

theorem c4_locker_created_iff_inserted_anonymous_witness :
    ((∃ l ∈ (stepOk (dbInit []) (Op.submit 1 ⟨1, true⟩)).lockers,
        l.complaint_id = (dbInit []).next_id) ↔
      (⟨1, true⟩ : Draft).is_anonymous = true) ∧
      ((⟨1, true⟩ : Draft).is_anonymous = false →
        (stepOk (dbInit []) (Op.submit 1 ⟨1, true⟩)).lockers = (dbInit []).lockers) :=
  c4_locker_created_iff_inserted_anonymous (dbInit []) 1 ⟨1, true⟩
    (stepOk (dbInit []) (Op.submit 1 ⟨1, true⟩)) rfl (by decide)

/-- Claim C5, counterexample: nothing in the schema or policies encodes
the reveal state machine.  In this reachable trace an admin UPDATE moves
a locker's `reveal_status` from its default `"not_revealed"` directly to
`"revealed"` without error (no prior request, no ordering error), and a
second admin UPDATE moves it back to `"not_revealed"` — a back-transition
the claimed monotonic machine forbids. -/
theorem c5_counterexample_status_back_transition :
    Option.map IdentityLocker.reveal_status
      ((run (dbInit [⟨9, AppRole.admin⟩])
        [Op.submit 1 ⟨1, true⟩,
         Op.updateLocker 9 0 ⟨none, some "revealed", none, none, none⟩]).lockers.find?
        (fun l => l.complaint_id == 0)) = some "revealed" ∧
    Option.map IdentityLocker.reveal_status
      ((run (dbInit [⟨9, AppRole.admin⟩])
        [Op.submit 1 ⟨1, true⟩,
         Op.updateLocker 9 0 ⟨none, some "revealed", none, none, none⟩,
         Op.updateLocker 9 0 ⟨none, some "not_revealed", none, none, none⟩]).lockers.find?
        (fun l => l.complaint_id == 0)) = some "not_revealed" := by
  exact ⟨rfl, rfl⟩

/-- Claim C5, amended: what the code does enforce is admin-only access:
a locker UPDATE by a caller without the admin role is filtered out by the
policy and changes nothing.  Beyond that nothing constrains
`reveal_status`: a locker UPDATE never fails (in particular never with an
InvalidTransition ordering error), and for an admin the supplied SET
list is applied to the matching row whatever its current status. -/
theorem c5_locker_updates_admin_only_and_unordered (db : DB) (caller : UserId)
    (cid : ComplaintId) (u : LockerUpdate) :
    (has_role db caller AppRole.admin = false →
      updateLockerRow db caller cid u = Except.ok db) ∧
    (∀ e : DomainError, updateLockerRow db caller cid u ≠ Except.error e) ∧
    (∀ l, has_role db caller AppRole.admin = true →
      db.lockers.find? (fun x => x.complaint_id == cid) = some l →
      ∃ db', updateLockerRow db caller cid u = Except.ok db' ∧
        applyLockerUpdate u l ∈ db'.lockers ∧
        db'.complaints = db.complaints) := by
  refine ⟨?_, ?_, ?_⟩
  · intro hna
    unfold updateLockerRow
    split
    next => rfl
    next =>
      unfold lockerPolicy
      rw [hna]
      rfl
  · intro e
    unfold updateLockerRow
    split
    next => intro hcon; cases hcon
    next =>
      split
      next => intro hcon; cases hcon
      next => intro hcon; cases hcon
  · intro l hadmin hfind
    unfold updateLockerRow
    rw [hfind]
    unfold lockerPolicy
    rw [hadmin]
    refine ⟨_, rfl, ?_, rfl⟩
    have hl : l ∈ db.lockers := List.mem_of_find?_eq_some hfind
    have hpl : (l.complaint_id == cid) = true := by
      have h0 := List.find?_some hfind
      simpa using h0
    refine List.mem_map.mpr ⟨l, hl, ?_⟩
    simp [hpl]

theorem c5_locker_updates_admin_only_and_unordered_witness :
    (updateLockerRow
        ⟨[], [], [⟨0, 1, "revealed", none, none, none⟩], [⟨9, AppRole.admin⟩], 1⟩
        2 0 ⟨none, some "not_revealed", none, none, none⟩ =
      Except.ok
        ⟨[], [], [⟨0, 1, "revealed", none, none, none⟩], [⟨9, AppRole.admin⟩], 1⟩) ∧
    (∃ db', updateLockerRow
        ⟨[], [], [⟨0, 1, "revealed", none, none, none⟩], [⟨9, AppRole.admin⟩], 1⟩
        9 0 ⟨none, some "not_revealed", none, none, none⟩ = Except.ok db' ∧
      applyLockerUpdate ⟨none, some "not_revealed", none, none, none⟩
          ⟨0, 1, "revealed", none, none, none⟩ ∈ db'.lockers ∧
      db'.complaints =
        (⟨[], [], [⟨0, 1, "revealed", none, none, none⟩], [⟨9, AppRole.admin⟩], 1⟩ : DB).complaints) :=
  ⟨(c5_locker_updates_admin_only_and_unordered
      ⟨[], [], [⟨0, 1, "revealed", none, none, none⟩], [⟨9, AppRole.admin⟩], 1⟩
      2 0 ⟨none, some "not_revealed", none, none, none⟩).1 (by decide),
   (c5_locker_updates_admin_only_and_unordered
      ⟨[], [], [⟨0, 1, "revealed", none, none, none⟩], [⟨9, AppRole.admin⟩], 1⟩
      9 0 ⟨none, some "not_revealed", none, none, none⟩).2.2
      ⟨0, 1, "revealed", none, none, none⟩ (by decide) (by decide)⟩

/-- Claim C6: row-level security filters invisible rows out of a SELECT
instead of erroring, so a caller that no SELECT policy lets view the row
(not the owner, not the assigned staff member, not an admin) gets the
same not-found outcome as for an identifier that does not exist at all,
and a read never yields an unauthorized outcome; an unauthorized caller
therefore cannot distinguish an existing complaint from a nonexistent
one. -/
theorem c6_unauthorized_read_is_not_found (db : DB) (caller : UserId)
    (cid : ComplaintId) :
    ((∀ c ∈ db.complaints, c.id = cid → canViewComplaint db caller c = false) →
      readComplaint db caller cid = ReadResult.notFound) ∧
      readComplaint db caller cid ≠ ReadResult.unauthorized := by
  unfold readComplaint
  cases hfind : db.complaints.find? (fun c => c.id == cid) with
  | none =>
      refine ⟨fun _ => rfl, ?_⟩
      intro hcon
      cases hcon
  | some c =>
      have hmem : c ∈ db.complaints := List.mem_of_find?_eq_some hfind
      have hid : c.id = cid := by
        have h0 := List.find?_some hfind
        simpa using h0
      constructor
      · intro h
        simp only [h c hmem hid, Bool.false_eq_true, if_false]
      · show (if canViewComplaint db caller c = true then ReadResult.found c
            else ReadResult.notFound) ≠ ReadResult.unauthorized
        cases hview : canViewComplaint db caller c with
        | true =>
            simp only [hview, if_true]
            intro hcon
            cases hcon
        | false =>
            simp only [hview, Bool.false_eq_true, if_false]
            intro hcon
            cases hcon

theorem c6_unauthorized_read_is_not_found_witness :
    (readComplaint (run (dbInit []) [Op.submit 1 ⟨1, false⟩]) 2 0 =
      ReadResult.notFound) ∧
    (readComplaint (run (dbInit []) [Op.submit 1 ⟨1, false⟩]) 2 99 =
      ReadResult.notFound) :=
  ⟨(c6_unauthorized_read_is_not_found
      (run (dbInit []) [Op.submit 1 ⟨1, false⟩]) 2 0).1 (by decide),
   (c6_unauthorized_read_is_not_found
      (run (dbInit []) [Op.submit 1 ⟨1, false⟩]) 2 99).1 (by decide)⟩

/-- Claim C7, counterexample: no operation validates status transitions.
In this reachable trace the owning student resolves complaint 0 and then
moves it from `resolved` back to `submitted`; the update succeeds and
changes the record, so `resolved` is not terminal and the forbidden
transition is not rejected. -/
theorem c7_counterexample_resolved_reopened :
    Option.map Complaint.status ((run (dbInit [])
      [Op.submit 1 ⟨1, false⟩,
       Op.updateComplaint 1 0 ⟨some ComplaintStatus.resolved, none, none, none, none⟩]).complaints.find?
        (fun c => c.id == 0)) = some ComplaintStatus.resolved ∧
    Option.map Complaint.status ((run (dbInit [])
      [Op.submit 1 ⟨1, false⟩,
       Op.updateComplaint 1 0 ⟨some ComplaintStatus.resolved, none, none, none, none⟩,
       Op.updateComplaint 1 0 ⟨some ComplaintStatus.submitted, none, none, none, none⟩]).complaints.find?
        (fun c => c.id == 0)) = some ComplaintStatus.submitted := by
  exact ⟨rfl, rfl⟩

/-- Claim C7, amended: complaint updates are gated only by row
authorization (the owning student, the assigned staff member holding the
staff role, or an admin); the code contains no transition validation, so
an authorized status update to ANY target status — from any current
status, including out of `resolved` — succeeds and is applied, and an
update never fails with an InvalidTransition error. -/
theorem c7_no_transition_validation (db : DB) (caller : UserId)
    (cid : ComplaintId) (u : ComplaintUpdate) (st : ComplaintStatus)
    (c : Complaint) :
    (updateComplaintRow db caller cid u ≠
      Except.error DomainError.InvalidTransition) ∧
    (db.complaints.find? (fun x => x.id == cid) = some c →
      complaintUpdatePolicy db caller c = true →
      ∃ db', updateComplaintRow db caller cid ⟨some st, none, none, none, none⟩ =
          Except.ok db' ∧
        { c with status := st } ∈ db'.complaints) := by
  constructor
  · unfold updateComplaintRow
    split
    next =>
      intro hcon
      cases hcon
    next =>
      split
      next =>
        split
        next =>
          intro hcon
          cases hcon
        next =>
          intro hcon
          cases hcon
      next =>
        intro hcon
        cases hcon
  · intro hfind hpol
    have hmem : c ∈ db.complaints := List.mem_of_find?_eq_some hfind
    have hid : (c.id == cid) = true := by
      have h0 := List.find?_some hfind
      simpa using h0
    have hpol2 : complaintUpdatePolicy db caller
        (applyComplaintUpdate ⟨some st, none, none, none, none⟩ c) = true := hpol
    unfold updateComplaintRow
    simp only [hfind]
    rw [if_pos hpol, if_pos hpol2]
    refine ⟨_, rfl, ?_⟩
    refine List.mem_map.mpr ⟨c, hmem, ?_⟩
    simp only [hid, if_true]
    rfl

theorem c7_no_transition_validation_witness :
    (updateComplaintRow
        ⟨[⟨0, 1, false, ComplaintStatus.resolved, none, none⟩],
          [⟨0, some 1, "Complaint submitted"⟩], [], [], 1⟩
        1 0 ⟨some ComplaintStatus.submitted, none, none, none, none⟩ ≠
      Except.error DomainError.InvalidTransition) ∧
    (∃ db', updateComplaintRow
        ⟨[⟨0, 1, false, ComplaintStatus.resolved, none, none⟩],
          [⟨0, some 1, "Complaint submitted"⟩], [], [], 1⟩
        1 0 ⟨some ComplaintStatus.submitted, none, none, none, none⟩ =
          Except.ok db' ∧
      ({ (⟨0, 1, false, ComplaintStatus.resolved, none, none⟩ : Complaint) with
          status := ComplaintStatus.submitted } : Complaint) ∈ db'.complaints) :=
  ⟨(c7_no_transition_validation
      ⟨[⟨0, 1, false, ComplaintStatus.resolved, none, none⟩],
        [⟨0, some 1, "Complaint submitted"⟩], [], [], 1⟩
      1 0 ⟨some ComplaintStatus.submitted, none, none, none, none⟩
      ComplaintStatus.submitted
      ⟨0, 1, false, ComplaintStatus.resolved, none, none⟩).1,
   (c7_no_transition_validation
      ⟨[⟨0, 1, false, ComplaintStatus.resolved, none, none⟩],
        [⟨0, some 1, "Complaint submitted"⟩], [], [], 1⟩
      1 0 ⟨some ComplaintStatus.submitted, none, none, none, none⟩
      ComplaintStatus.submitted
      ⟨0, 1, false, ComplaintStatus.resolved, none, none⟩).2
      (by decide) (by decide)⟩

/-- Claim C8: the locker insert of `create_identity_locker` carries
`ON CONFLICT (complaint_id) DO NOTHING`, so running the vault step again
when a locker row for the complaint already exists is a no-op: it
returns successfully (the function is total, nothing is raised) and the
relation — in particular the existing entry — is left unchanged. -/
theorem c8_vault_second_call_noop (c : Complaint) (ls : List IdentityLocker)
    (h : ls.any (fun l => l.complaint_id == c.id) = true) :
    create_identity_locker c ls = ls := by
  unfold create_identity_locker
  cases hA : c.is_anonymous with
  | false => rfl
  | true => simp [h]

theorem c8_vault_second_call_noop_witness :
    create_identity_locker ⟨0, 1, true, ComplaintStatus.submitted, none, none⟩
      [⟨0, 1, "not_revealed", none, none, none⟩] =
      [⟨0, 1, "not_revealed", none, none, none⟩] :=
  c8_vault_second_call_noop ⟨0, 1, true, ComplaintStatus.submitted, none, none⟩
    [⟨0, 1, "not_revealed", none, none, none⟩] (by decide)

/-- Claim C9, counterexample: `user_roles` carries a plain
`UNIQUE (user_id, role)` constraint and nothing in the repository inserts
with conflict handling, so granting a pair that already exists (here
admin 9 granting student 7 the student role twice, a reachable state)
fails with a uniqueness violation instead of succeeding as a no-op. -/
theorem c9_counterexample_duplicate_grant_errors :
    insertUserRole (run (dbInit [⟨9, AppRole.admin⟩])
        [Op.grantRole 9 7 AppRole.student]) 9 7 AppRole.student =
      Except.error DomainError.UniqueViolation := by
  exact rfl

/-- Claim C9, amended: granting a (principal, role) pair the principal
already holds exactly once is rejected by the uniqueness constraint with
an error — not silently ignored — and since the failed insert changes
nothing the principal still holds the role exactly once. -/
theorem c9_duplicate_grant_unique_violation (db : DB) (caller : UserId)
    (u : UserId) (r : AppRole)
    (hadmin : has_role db caller AppRole.admin = true)
    (hdup : (db.user_roles.filter
        (fun a => a.user_id == u && a.role == r)).length = 1) :
    insertUserRole db caller u r = Except.error DomainError.UniqueViolation := by
  have hany : db.user_roles.any (fun a => a.user_id == u && a.role == r) = true := by
    have hne : db.user_roles.filter (fun a => a.user_id == u && a.role == r) ≠ [] := by
      intro hnil
      rw [hnil] at hdup
      cases hdup
    rcases List.exists_mem_of_ne_nil _ hne with ⟨x, hx⟩
    rcases List.mem_filter.mp hx with ⟨hx1, hx2⟩
    exact List.any_eq_true.mpr ⟨x, hx1, hx2⟩
  unfold insertUserRole
  rw [hadmin, hany]
  rfl

theorem c9_duplicate_grant_unique_violation_witness :
    insertUserRole ⟨[], [], [], [⟨9, AppRole.admin⟩, ⟨7, AppRole.student⟩], 0⟩
        9 7 AppRole.student =
      Except.error DomainError.UniqueViolation :=
  c9_duplicate_grant_unique_violation
    ⟨[], [], [], [⟨9, AppRole.admin⟩, ⟨7, AppRole.student⟩], 0⟩
    9 7 AppRole.student (by decide) (by decide)
